import Mathlib

/-!
Verification of the failure-handling core of the `what-if` benchmarking
repository: the `CircuitBreaker` class of the Kafka consumer
(`seed-data.js`, second document) and the Bloom-filter-with-fallback
username service (`init.sql`, second document; builders in
`seed-data.js` / `seed-remaining.js`).

Machine integers of the JavaScript source (`Date.now()` timestamps,
counters) are modelled as `Nat`; the wrapped asynchronous operation is
modelled by its outcome; the mutable breaker object is modelled by
explicit state passing.
-/

/-- Breaker admission states, as the string field `this.state` of the JS
class (`'CLOSED' | 'OPEN' | 'HALF_OPEN'`). -/
inductive CBState where
  | CLOSED
  | OPEN
  | HALF_OPEN
deriving DecidableEq, Repr

/-- The `CircuitBreaker` object: configuration fixed by the constructor
(`threshold`, `timeout`, `resetTimeout`) plus the mutable fields
`state`, `failureCount`, `nextAttempt`, `successCount`.  The `timeout`
field is carried for faithfulness although the class never reads it. -/
structure CircuitBreaker where
  failureThreshold : Nat
  timeout : Nat
  resetTimeout : Nat
  state : CBState
  failureCount : Nat
  nextAttempt : Nat
  successCount : Nat
deriving DecidableEq, Repr

/-- The constructor `new CircuitBreaker(threshold, timeout, resetTimeout)`;
`nextAttempt = Date.now()` is the construction instant `now`. -/
def CircuitBreaker.init (threshold timeout resetTimeout now : Nat) : CircuitBreaker :=
  { failureThreshold := threshold
    timeout := timeout
    resetTimeout := resetTimeout
    state := CBState.CLOSED
    failureCount := 0
    nextAttempt := now
    successCount := 0 }

/-- Outcome of the wrapped zero-argument operation `fn`: it either
resolves with a value or rejects with an error. -/
inductive Outcome (α ε : Type) where
  | success (a : α)
  | failure (e : ε)
deriving DecidableEq, Repr

/-- What one `execute` call returns to its caller: the operation's
result, the operation's own error re-raised, or the synchronous
circuit-open rejection (with the advertised wait time in seconds) thrown
without invoking the operation. -/
inductive ExecResult (α ε : Type) where
  | ok (a : α)
  | opErr (e : ε)
  | circuitOpen (waitTime : Nat)
deriving DecidableEq, Repr

/-- `onSuccess()`: always `failureCount = 0`; while HALF_OPEN the success
counter is incremented (`successCount++`) and on reaching 3
(`successCount >= 3`, i.e. `3 <= successCount + 1` before the increment)
the breaker closes and resets `successCount` to 0. -/
def CircuitBreaker.onSuccess (cb : CircuitBreaker) : CircuitBreaker :=
  if cb.state = CBState.HALF_OPEN then
    if 3 ≤ cb.successCount + 1 then
      { cb with failureCount := 0, state := CBState.CLOSED, successCount := 0 }
    else
      { cb with failureCount := 0, successCount := cb.successCount + 1 }
  else
    { cb with failureCount := 0 }

/-- `onFailure()`: `failureCount++`; when the incremented count reaches
`failureThreshold` the breaker opens and `nextAttempt = Date.now() +
resetTimeout`.  `successCount` is not touched. -/
def CircuitBreaker.onFailure (cb : CircuitBreaker) (now : Nat) : CircuitBreaker :=
  if cb.failureThreshold ≤ cb.failureCount + 1 then
    { cb with failureCount := cb.failureCount + 1, state := CBState.OPEN,
              nextAttempt := now + cb.resetTimeout }
  else
    { cb with failureCount := cb.failureCount + 1 }

/-- The `try { await fn(); this.onSuccess() } catch { this.onFailure();
throw err }` body of `execute`. -/
def CircuitBreaker.runOp {α ε : Type} (cb : CircuitBreaker) (now : Nat)
    (op : Outcome α ε) : ExecResult α ε × CircuitBreaker :=
  match op with
  | Outcome.success a => (ExecResult.ok a, cb.onSuccess)
  | Outcome.failure e => (ExecResult.opErr e, cb.onFailure now)

/-- `execute(fn)` at instant `now`: while OPEN and before `nextAttempt`
it throws the circuit-open error with `Math.ceil((nextAttempt - now) /
1000)` seconds of advertised wait and touches nothing; while OPEN with
the cooldown elapsed it moves to HALF_OPEN and runs the operation;
otherwise it runs the operation directly. -/
def CircuitBreaker.execute {α ε : Type} (cb : CircuitBreaker) (now : Nat)
    (op : Outcome α ε) : ExecResult α ε × CircuitBreaker :=
  if cb.state = CBState.OPEN then
    if now < cb.nextAttempt then
      (ExecResult.circuitOpen ((cb.nextAttempt - now + 999) / 1000), cb)
    else
      CircuitBreaker.runOp { cb with state := CBState.HALF_OPEN } now op
  else
    cb.runOp now op

/-- One timestamped call to `execute` with the outcome its operation
would have. -/
abbrev CBEvent : Type := Nat × Outcome Nat Nat

/-- Run a sequence of `execute` calls, collecting each call's result and
the final breaker state. -/
def CircuitBreaker.runTraceAll (cb : CircuitBreaker) :
    List CBEvent → List (ExecResult Nat Nat) × CircuitBreaker
  | [] => ([], cb)
  | ev :: rest =>
    let r := cb.execute ev.1 ev.2
    let rs := r.2.runTraceAll rest
    (r.1 :: rs.1, rs.2)

/-- Final breaker state after a sequence of `execute` calls. -/
def CircuitBreaker.runTrace (cb : CircuitBreaker) (evs : List CBEvent) : CircuitBreaker :=
  (cb.runTraceAll evs).2

/-!
The Bloom-filter side.  The probabilistic structure itself is the
external `bloom-filters` npm library; only its call sites are in the
repository.  Its behaviour is therefore modelled from the spec (§4.2):
a filter is a bit array of length `m` with `k` hash rounds, insertion
sets the key's `k` positions, and a query tests that all `k` positions
are set.  The hash family is an abstract parameter `hash : String → Nat
→ Nat`, reduced into `[0, m)` by `% m` as the spec's "bit positions in
[0, m)" requires.
-/

/-- Modelled from the spec: the in-memory Bloom filter of the
`bloom-filters` library — bit-array length `size` (the spec's `m`),
hash-round count `nbHashes` (the spec's `k`) and the bit array itself
(`_bits`). -/
structure BloomFilter where
  size : Nat
  nbHashes : Nat
  bits : List Bool
deriving DecidableEq, Repr

/-- Modelled from the spec: `BloomFilter.create` of the library yields
an all-zero bit array; the real-valued sizing formulas of §4.2 that
derive `m` and `k` from `(n, p)` are abstracted by taking the resulting
`m` and `k` as parameters. -/
def BloomFilter.create (m k : Nat) : BloomFilter :=
  { size := m, nbHashes := k, bits := List.replicate m false }

/-- Modelled from the spec: `filter.add(key)` sets each of the `k` bit
positions of `key` to 1. -/
def BloomFilter.add (hash : String → Nat → Nat) (f : BloomFilter)
    (key : String) : BloomFilter :=
  { f with
    bits := (List.range f.nbHashes).foldl
      (fun bs i => bs.set (hash key i % f.size) true) f.bits }

/-- Modelled from the spec: `filter.has(key)` recomputes the same `k`
positions and returns true iff all are set (an unset position means
definitely absent). -/
def BloomFilter.has (hash : String → Nat → Nat) (f : BloomFilter)
    (key : String) : Bool :=
  (List.range f.nbHashes).all
    (fun i => f.bits.getD (hash key i % f.size) false)

/-- The build loop of `buildBloomFilter` / `buildBloomFilterFromPostgres`:
create the filter, then `filter.add` every key of the authoritative key
set, iterated in order. -/
def buildBloomFilter (hash : String → Nat → Nat) (m k : Nat)
    (keys : List String) : BloomFilter :=
  keys.foldl (BloomFilter.add hash) (BloomFilter.create m k)

/-- The persisted record written by the seeding scripts:
`{size, nbHashes, bits, metadata: {totalItems, fpr, createdAt}}`.  The
`fpr` metadata field is a JS float and is carried as an opaque string;
no query behaviour depends on it. -/
structure SavedBloomFilter where
  size : Nat
  nbHashes : Nat
  bits : List Bool
  totalItems : Nat
  fpr : String
  createdAt : String
deriving DecidableEq, Repr

/-- The serialization step of `buildBloomFilter` in `seed-data.js`:
`filterData = {size: filter.size, nbHashes: filter.nbHashes, bits:
Array.from(filter._bits), metadata: {...}}`. -/
def saveBloomFilter (f : BloomFilter) (totalItems : Nat) (fpr createdAt : String) :
    SavedBloomFilter :=
  { size := f.size, nbHashes := f.nbHashes, bits := f.bits,
    totalItems := totalItems, fpr := fpr, createdAt := createdAt }

/-- The `loadBloomFilter` function of the serving process (`init.sql`,
second document, lines 36–57): it parses the persisted record, calls
`BloomFilter.create(data.size, 0.01)` — passing the persisted bit count
as the factory's item-count argument — and then overwrites only the bit
array (`bloomFilter._bits = ...`) and the hash count
(`bloomFilter.nbHashes = ...`) from the record.  Nothing restores the
filter's size to the persisted value.  The library factory is abstracted
exactly as in `BloomFilter.create`: `createdSize` and `createdHashes`
stand for the bit count and hash count the library's §4.2 sizing derives
from the item count `rec.size` and error rate 0.01 (for any persisted
`rec.size ≥ 1` that created bit count is about 9.58 times `rec.size`,
in particular strictly larger). -/
def loadBloomFilter (createdSize createdHashes : Nat) (rec : SavedBloomFilter) :
    BloomFilter :=
  { BloomFilter.create createdSize createdHashes with
    bits := rec.bits, nbHashes := rec.nbHashes }

/-!
The `/check-username` handler of the Bloom-filter service: validate the
request body, consult the filter, and only on a positive filter answer
fall back to the authoritative PostgreSQL store, counting detected
false positives.
-/

/-- The `username` field of the request body: absent, JSON `null`, or a
string.  JavaScript's `!username` is true exactly on the first two and
on the empty string. -/
inductive UsernameField where
  | absent
  | null
  | str (s : String)
deriving DecidableEq, Repr

/-- JavaScript truthiness test `!username` on the destructured field. -/
def UsernameField.falsy : UsernameField → Bool
  | UsernameField.absent => true
  | UsernameField.null => true
  | UsernameField.str s => s == ""

/-- The handler's HTTP response: the 400 validation rejection, or the
200 payload `{username, available, exists, bloomFilterSays,
databaseQueried, falsePositive}` (the timing fields are dropped). -/
inductive HandlerResult where
  | badRequest (error : String)
  | ok (username : String) (available : Bool) (dbExists : Bool)
       (bloomFilterSays : String) (databaseQueried : Bool) (falsePositive : Bool)
deriving DecidableEq, Repr

/-- The `POST /check-username` handler of the Bloom-filter service,
as a function of the loaded filter's answer `bloomHas`, the
authoritative store's answer `dbHas`, the request's `username` field and
the current value of the `bloom_false_positives_total` counter; returns
the response and the updated counter. -/
def checkUsernameHandler (bloomHas dbHas : String → Bool)
    (username : UsernameField) (falsePositivesTotal : Nat) :
    HandlerResult × Nat :=
  match username with
  | UsernameField.absent => (HandlerResult.badRequest "Username is required", falsePositivesTotal)
  | UsernameField.null => (HandlerResult.badRequest "Username is required", falsePositivesTotal)
  | UsernameField.str u =>
    if u == "" then
      (HandlerResult.badRequest "Username is required", falsePositivesTotal)
    else
      if bloomHas u then
        let dbE := dbHas u
        (HandlerResult.ok u (!dbE) dbE "maybe_exists" true (!dbE),
         if !dbE then falsePositivesTotal + 1 else falsePositivesTotal)
      else
        (HandlerResult.ok u true false "definitely_not_exists" false false,
         falsePositivesTotal)

/-!
Circuit-breaker theorems.
-/

/-- A fixed concrete breaker matching the deployment
`new CircuitBreaker(5, 3000, 60000)` up to the unused `timeout` field,
constructed at instant 0. -/
def cbDemo : CircuitBreaker := CircuitBreaker.init 5 30000 60000 0

theorem CircuitBreaker.execute_preserves_closed_inv {α ε : Type}
    (cb : CircuitBreaker) (now : Nat) (op : Outcome α ε)
    (h : cb.state = CBState.CLOSED → cb.successCount = 0) :
    (cb.execute now op).2.state = CBState.CLOSED →
    (cb.execute now op).2.successCount = 0 := by
  cases op <;>
    simp only [CircuitBreaker.execute, CircuitBreaker.runOp,
      CircuitBreaker.onSuccess, CircuitBreaker.onFailure] <;>
    split_ifs <;> simp_all

theorem CircuitBreaker.runTrace_preserves_closed_inv
    (evs : List CBEvent) (cb : CircuitBreaker)
    (h : cb.state = CBState.CLOSED → cb.successCount = 0) :
    (cb.runTrace evs).state = CBState.CLOSED →
    (cb.runTrace evs).successCount = 0 := by
  induction evs generalizing cb with
  | nil => exact h
  | cons ev rest ih =>
    simp only [CircuitBreaker.runTrace, CircuitBreaker.runTraceAll] at *
    exact ih _ (cb.execute_preserves_closed_inv ev.1 ev.2 h)

/-- Trace of the spec's own recovery test (§8): five failures trip the
breaker, cooldown passes, then success, success, failure. -/
def c1Trace : List CBEvent :=
  [(0, Outcome.failure 10), (1, Outcome.failure 11), (2, Outcome.failure 12),
   (3, Outcome.failure 13), (4, Outcome.failure 14),
   (70000, Outcome.success 1), (70001, Outcome.success 2),
   (70002, Outcome.failure 15)]

/-- C1 counterexample: after the spec's own probing sequence
(5 failures, cooldown, success, success, failure) the breaker is still
HALF_OPEN with `successCount = 2` — the interleaved failure neither
transitioned the breaker back to OPEN nor reset the consecutive-success
count to zero, contrary to the claim. -/
theorem c1_halfOpen_failure_cex :
    (cbDemo.runTrace c1Trace).state = CBState.HALF_OPEN ∧
    (cbDemo.runTrace c1Trace).successCount = 2 ∧
    ¬ (cbDemo.runTrace c1Trace).state = CBState.OPEN ∧
    ¬ (cbDemo.runTrace c1Trace).successCount = 0 := by
  decide

/-- C1 (amended): while HALF_OPEN, a success increments `successCount`
and the breaker closes (resetting it to 0) exactly when the incremented
count reaches 3; a failure leaves `successCount` unchanged and moves the
breaker back to OPEN exactly when the incremented `failureCount`
(consecutive failures since the last success) reaches
`failureThreshold`, otherwise the breaker stays HALF_OPEN. -/
theorem c1_execute_halfOpen_amended (cb : CircuitBreaker) (now a e : Nat)
    (h : cb.state = CBState.HALF_OPEN) :
    (3 ≤ cb.successCount + 1 →
      (cb.execute now (Outcome.success a : Outcome Nat Nat)).2.state = CBState.CLOSED ∧
      (cb.execute now (Outcome.success a : Outcome Nat Nat)).2.successCount = 0) ∧
    (cb.successCount + 1 < 3 →
      (cb.execute now (Outcome.success a : Outcome Nat Nat)).2.state = CBState.HALF_OPEN ∧
      (cb.execute now (Outcome.success a : Outcome Nat Nat)).2.successCount =
        cb.successCount + 1) ∧
    ((cb.execute now (Outcome.failure e : Outcome Nat Nat)).2.successCount =
        cb.successCount) ∧
    (cb.failureThreshold ≤ cb.failureCount + 1 →
      (cb.execute now (Outcome.failure e : Outcome Nat Nat)).2.state = CBState.OPEN) ∧
    (cb.failureCount + 1 < cb.failureThreshold →
      (cb.execute now (Outcome.failure e : Outcome Nat Nat)).2.state = CBState.HALF_OPEN) := by
  simp only [CircuitBreaker.execute, CircuitBreaker.runOp,
    CircuitBreaker.onSuccess, CircuitBreaker.onFailure, h]
  split_ifs <;> simp_all

/-- A concrete HALF_OPEN breaker used to witness the amended C1. -/
def cbHalfOpen : CircuitBreaker :=
  { failureThreshold := 5, timeout := 30000, resetTimeout := 60000,
    state := CBState.HALF_OPEN, failureCount := 0, nextAttempt := 60004,
    successCount := 2 }

/-- Witness for the amended C1 at a concrete HALF_OPEN breaker. -/
theorem c1_execute_halfOpen_amended_witness :
    (3 ≤ cbHalfOpen.successCount + 1 →
      (cbHalfOpen.execute 70005 (Outcome.success 1 : Outcome Nat Nat)).2.state = CBState.CLOSED ∧
      (cbHalfOpen.execute 70005 (Outcome.success 1 : Outcome Nat Nat)).2.successCount = 0) ∧
    (cbHalfOpen.successCount + 1 < 3 →
      (cbHalfOpen.execute 70005 (Outcome.success 1 : Outcome Nat Nat)).2.state = CBState.HALF_OPEN ∧
      (cbHalfOpen.execute 70005 (Outcome.success 1 : Outcome Nat Nat)).2.successCount =
        cbHalfOpen.successCount + 1) ∧
    ((cbHalfOpen.execute 70005 (Outcome.failure 9 : Outcome Nat Nat)).2.successCount =
        cbHalfOpen.successCount) ∧
    (cbHalfOpen.failureThreshold ≤ cbHalfOpen.failureCount + 1 →
      (cbHalfOpen.execute 70005 (Outcome.failure 9 : Outcome Nat Nat)).2.state = CBState.OPEN) ∧
    (cbHalfOpen.failureCount + 1 < cbHalfOpen.failureThreshold →
      (cbHalfOpen.execute 70005 (Outcome.failure 9 : Outcome Nat Nat)).2.state = CBState.HALF_OPEN) :=
  c1_execute_halfOpen_amended cbHalfOpen 70005 1 9 (by decide)

/-- Helper: while OPEN, every call whose instant precedes `nextAttempt`
is rejected with the circuit-open error and leaves the breaker record
untouched, for a whole trace at once. -/
theorem CircuitBreaker.open_window_rejects_all (cb : CircuitBreaker)
    (evs : List CBEvent) (hO : cb.state = CBState.OPEN)
    (hW : ∀ ev ∈ evs, ev.1 < cb.nextAttempt) :
    cb.runTraceAll evs =
      (evs.map (fun ev => ExecResult.circuitOpen ((cb.nextAttempt - ev.1 + 999) / 1000)),
       cb) := by
  induction evs with
  | nil => simp [CircuitBreaker.runTraceAll]
  | cons ev rest ih =>
    have hev : ev.1 < cb.nextAttempt := hW ev (List.mem_cons_self ev rest)
    have hrest : ∀ e ∈ rest, e.1 < cb.nextAttempt :=
      fun e he => hW e (List.mem_cons_of_mem ev he)
    simp [CircuitBreaker.runTraceAll, CircuitBreaker.execute, hO, hev, ih hrest]

/-- C2: a failure that makes `failureCount` reach `failureThreshold`
while CLOSED trips the breaker to OPEN with `nextAttempt = now +
resetTimeout`, and every subsequent call arriving strictly before that
instant — whatever its operation would have done — is rejected with the
circuit-open error, never invoking the operation and never changing the
breaker. -/
theorem c2_trip_then_cooldown_rejects (cb : CircuitBreaker) (now e : Nat)
    (hC : cb.state = CBState.CLOSED)
    (hT : cb.failureThreshold ≤ cb.failureCount + 1) :
    (cb.execute now (Outcome.failure e : Outcome Nat Nat)).2.state = CBState.OPEN ∧
    (cb.execute now (Outcome.failure e : Outcome Nat Nat)).2.nextAttempt =
      now + cb.resetTimeout ∧
    ∀ evs : List CBEvent, (∀ ev ∈ evs, ev.1 < now + cb.resetTimeout) →
      (cb.execute now (Outcome.failure e : Outcome Nat Nat)).2.runTraceAll evs =
        (evs.map (fun ev =>
            ExecResult.circuitOpen ((now + cb.resetTimeout - ev.1 + 999) / 1000)),
         (cb.execute now (Outcome.failure e : Outcome Nat Nat)).2) := by
  have hcb : (cb.execute now (Outcome.failure e : Outcome Nat Nat)).2 =
      { cb with failureCount := cb.failureCount + 1, state := CBState.OPEN,
                nextAttempt := now + cb.resetTimeout } := by
    simp [CircuitBreaker.execute, CircuitBreaker.runOp, CircuitBreaker.onFailure, hC, hT]
  refine ⟨by rw [hcb], by rw [hcb], fun evs hW => ?_⟩
  rw [hcb]
  exact CircuitBreaker.open_window_rejects_all _ evs rfl hW

/-- A concrete CLOSED breaker one failure away from its threshold. -/
def cbAlmostTripped : CircuitBreaker :=
  { failureThreshold := 5, timeout := 30000, resetTimeout := 60000,
    state := CBState.CLOSED, failureCount := 4, nextAttempt := 0,
    successCount := 0 }

/-- Witness for C2: the fifth failure at instant 100 trips the breaker,
and a would-be-successful call at instant 200 inside the cooldown window
is rejected without reaching the operation. -/
theorem c2_trip_then_cooldown_rejects_witness :
    (cbAlmostTripped.execute 100 (Outcome.failure 3 : Outcome Nat Nat)).2.state = CBState.OPEN ∧
    (cbAlmostTripped.execute 100 (Outcome.failure 3 : Outcome Nat Nat)).2.nextAttempt =
      100 + cbAlmostTripped.resetTimeout ∧
    ∀ evs : List CBEvent, (∀ ev ∈ evs, ev.1 < 100 + cbAlmostTripped.resetTimeout) →
      (cbAlmostTripped.execute 100 (Outcome.failure 3 : Outcome Nat Nat)).2.runTraceAll evs =
        (evs.map (fun ev =>
            ExecResult.circuitOpen ((100 + cbAlmostTripped.resetTimeout - ev.1 + 999) / 1000)),
         (cbAlmostTripped.execute 100 (Outcome.failure 3 : Outcome Nat Nat)).2) :=
  c2_trip_then_cooldown_rejects cbAlmostTripped 100 3 (by decide) (by decide)

/-- Trace reaching a state with both counters non-zero: five failures,
cooldown, two successes, one failure. -/
def c3Trace : List CBEvent :=
  [(0, Outcome.failure 20), (1, Outcome.failure 21), (2, Outcome.failure 22),
   (3, Outcome.failure 23), (4, Outcome.failure 24),
   (70000, Outcome.success 5), (70001, Outcome.success 6),
   (70002, Outcome.failure 25)]

/-- C3 counterexample: a reachable breaker state (after five failures,
cooldown, success, success, failure) has `failureCount = 1` and
`successCount = 2` simultaneously — both counters non-zero, contrary to
the claimed invariant. -/
theorem c3_both_counters_nonzero_cex :
    (cbDemo.runTrace c3Trace).failureCount ≠ 0 ∧
    (cbDemo.runTrace c3Trace).successCount ≠ 0 := by
  decide

/-- C3 (amended): the invariant holds restricted to the CLOSED state:
in every reachable breaker state whose `state` is CLOSED, the
consecutive-success counter is zero, hence the two counters are never
both non-zero while the breaker is CLOSED.  (While HALF_OPEN or OPEN
they can be, as the counterexample shows.) -/
theorem c3_closed_state_successCount_zero
    (threshold timeout resetTimeout startNow : Nat) (evs : List CBEvent)
    (h : ((CircuitBreaker.init threshold timeout resetTimeout startNow).runTrace evs).state =
      CBState.CLOSED) :
    ((CircuitBreaker.init threshold timeout resetTimeout startNow).runTrace evs).successCount = 0 ∧
    ¬ (((CircuitBreaker.init threshold timeout resetTimeout startNow).runTrace evs).failureCount ≠ 0 ∧
       ((CircuitBreaker.init threshold timeout resetTimeout startNow).runTrace evs).successCount ≠ 0) := by
  have hz : ((CircuitBreaker.init threshold timeout resetTimeout startNow).runTrace evs).successCount = 0 :=
    CircuitBreaker.runTrace_preserves_closed_inv evs _ (fun _ => rfl) h
  exact ⟨hz, fun hc => hc.2 hz⟩

/-- Witness for the amended C3 on a trace that closes the breaker again
after a trip and a full recovery. -/
theorem c3_closed_state_successCount_zero_witness :
    ((CircuitBreaker.init 5 30000 60000 0).runTrace
      [(0, Outcome.failure 0), (1, Outcome.failure 0), (2, Outcome.failure 0),
       (3, Outcome.failure 0), (4, Outcome.failure 0),
       (70000, Outcome.success 0), (70001, Outcome.success 0),
       (70002, Outcome.success 0)]).state = CBState.CLOSED ∧
    (((CircuitBreaker.init 5 30000 60000 0).runTrace
      [(0, Outcome.failure 0), (1, Outcome.failure 0), (2, Outcome.failure 0),
       (3, Outcome.failure 0), (4, Outcome.failure 0),
       (70000, Outcome.success 0), (70001, Outcome.success 0),
       (70002, Outcome.success 0)]).successCount = 0 ∧
     ¬ (((CircuitBreaker.init 5 30000 60000 0).runTrace
      [(0, Outcome.failure 0), (1, Outcome.failure 0), (2, Outcome.failure 0),
       (3, Outcome.failure 0), (4, Outcome.failure 0),
       (70000, Outcome.success 0), (70001, Outcome.success 0),
       (70002, Outcome.success 0)]).failureCount ≠ 0 ∧
        ((CircuitBreaker.init 5 30000 60000 0).runTrace
      [(0, Outcome.failure 0), (1, Outcome.failure 0), (2, Outcome.failure 0),
       (3, Outcome.failure 0), (4, Outcome.failure 0),
       (70000, Outcome.success 0), (70001, Outcome.success 0),
       (70002, Outcome.success 0)]).successCount ≠ 0)) :=
  ⟨by decide,
   c3_closed_state_successCount_zero 5 30000 60000 0
     [(0, Outcome.failure 0), (1, Outcome.failure 0), (2, Outcome.failure 0),
      (3, Outcome.failure 0), (4, Outcome.failure 0),
      (70000, Outcome.success 0), (70001, Outcome.success 0),
      (70002, Outcome.success 0)] (by decide)⟩

/-- Trace leaving HALF_OPEN for OPEN with a non-zero success counter:
five failures, cooldown, one success, then five failures. -/
def c4Trace : List CBEvent :=
  [(0, Outcome.failure 30), (1, Outcome.failure 31), (2, Outcome.failure 32),
   (3, Outcome.failure 33), (4, Outcome.failure 34),
   (70000, Outcome.success 7),
   (70001, Outcome.failure 35), (70002, Outcome.failure 36),
   (70003, Outcome.failure 37), (70004, Outcome.failure 38),
   (70005, Outcome.failure 39)]

/-- C4 counterexample: after `c4Trace` the breaker has left HALF_OPEN
for OPEN carrying `successCount = 1` (not reset), and the next probe
call after the cooldown (a success at instant 200000) runs with that
stale count, leaving `successCount = 2` — were the counter reset to 0 on
the OPEN → HALF_OPEN transition it would be 1. -/
theorem c4_successCount_not_reset_cex :
    (cbDemo.runTrace c4Trace).state = CBState.OPEN ∧
    (cbDemo.runTrace c4Trace).successCount = 1 ∧
    ((cbDemo.runTrace c4Trace).execute 200000
      (Outcome.success 8 : Outcome Nat Nat)).2.successCount = 2 := by
  decide

/-- C4 (amended): `successCount` is reset to 0 only on the HALF_OPEN →
CLOSED transition.  A failing call never changes it (in particular the
HALF_OPEN → OPEN transition preserves it), and the OPEN → HALF_OPEN
transition does not reset it: a successful probe increments the
carried-over count, closing the breaker at once if that reaches 3. -/
theorem c4_successCount_reset_only_on_close (cb : CircuitBreaker) (now a e : Nat) :
    ((cb.execute now (Outcome.failure e : Outcome Nat Nat)).2.successCount =
        cb.successCount) ∧
    (cb.state = CBState.OPEN → cb.nextAttempt ≤ now →
      (cb.execute now (Outcome.success a : Outcome Nat Nat)).2.successCount =
        (if 3 ≤ cb.successCount + 1 then 0 else cb.successCount + 1)) := by
  constructor
  · simp only [CircuitBreaker.execute, CircuitBreaker.runOp, CircuitBreaker.onFailure]
    split_ifs <;> simp_all
  · intro hO hN
    simp only [CircuitBreaker.execute, CircuitBreaker.runOp, CircuitBreaker.onSuccess, hO]
    split_ifs <;> simp_all <;> omega

/-- A concrete OPEN breaker with elapsed cooldown and a stale success
counter, witnessing the amended C4. -/
def cbOpenStale : CircuitBreaker :=
  { failureThreshold := 5, timeout := 30000, resetTimeout := 60000,
    state := CBState.OPEN, failureCount := 5, nextAttempt := 130005,
    successCount := 1 }

/-- Witness for the amended C4 at a concrete OPEN breaker. -/
theorem c4_successCount_reset_only_on_close_witness :
    ((cbOpenStale.execute 200000 (Outcome.failure 4 : Outcome Nat Nat)).2.successCount =
        cbOpenStale.successCount) ∧
    (cbOpenStale.state = CBState.OPEN → cbOpenStale.nextAttempt ≤ 200000 →
      (cbOpenStale.execute 200000 (Outcome.success 4 : Outcome Nat Nat)).2.successCount =
        (if 3 ≤ cbOpenStale.successCount + 1 then 0 else cbOpenStale.successCount + 1)) :=
  c4_successCount_reset_only_on_close cbOpenStale 200000 4 4

/-- C5: whenever the wrapped operation is actually invoked (the breaker
is not rejecting: either not OPEN, or OPEN with the cooldown elapsed)
and the operation fails, `execute` records the failure — the failure
counter is incremented — and re-raises exactly the original error. -/
theorem c5_failure_recorded_and_reraised (cb : CircuitBreaker) (now e : Nat)
    (h : cb.state = CBState.OPEN → cb.nextAttempt ≤ now) :
    (cb.execute now (Outcome.failure e : Outcome Nat Nat)).1 = ExecResult.opErr e ∧
    (cb.execute now (Outcome.failure e : Outcome Nat Nat)).2.failureCount =
      cb.failureCount + 1 := by
  simp only [CircuitBreaker.execute, CircuitBreaker.runOp, CircuitBreaker.onFailure]
  split_ifs <;> (simp_all; try omega)

/-- Witness for C5 on a CLOSED breaker: error 42 comes back unchanged
and the failure counter moves from 0 to 1. -/
theorem c5_failure_recorded_and_reraised_witness :
    (cbDemo.execute 10 (Outcome.failure 42 : Outcome Nat Nat)).1 = ExecResult.opErr 42 ∧
    (cbDemo.execute 10 (Outcome.failure 42 : Outcome Nat Nat)).2.failureCount =
      cbDemo.failureCount + 1 :=
  c5_failure_recorded_and_reraised cbDemo 10 42 (by decide)

/-- C9: a rejection while OPEN inside the cooldown window is free of
side effects — `execute` returns the circuit-open error (so the wrapped
operation, whatever it is, is never invoked) and the breaker record,
with all its fields, is exactly the one before the call. -/
theorem c9_open_rejection_pure (cb : CircuitBreaker) (now : Nat)
    (op : Outcome Nat Nat) (h1 : cb.state = CBState.OPEN)
    (h2 : now < cb.nextAttempt) :
    cb.execute now op =
      (ExecResult.circuitOpen ((cb.nextAttempt - now + 999) / 1000), cb) := by
  simp [CircuitBreaker.execute, h1, h2]

/-- Witness for C9: an OPEN breaker at instant 100 before its
`nextAttempt` of 60004 rejects a would-be-successful call untouched. -/
theorem c9_open_rejection_pure_witness :
    ({ failureThreshold := 5, timeout := 30000, resetTimeout := 60000,
       state := CBState.OPEN, failureCount := 5, nextAttempt := 60004,
       successCount := 0 } : CircuitBreaker).execute 100
        (Outcome.success 1 : Outcome Nat Nat) =
      (ExecResult.circuitOpen ((60004 - 100 + 999) / 1000),
       { failureThreshold := 5, timeout := 30000, resetTimeout := 60000,
         state := CBState.OPEN, failureCount := 5, nextAttempt := 60004,
         successCount := 0 }) :=
  c9_open_rejection_pure _ 100 (Outcome.success 1) rfl (by decide)

/-!
Bloom-filter theorems.  The bit array is a `List Bool` read through
`getD _ false` (an out-of-range read is an unset bit) and written
through `List.set` (an out-of-range write is a no-op), matching a
fixed-size 0-initialised array.
-/

theorem getD_set_true_of_true (l : List Bool) (i j : Nat)
    (h : l.getD j false = true) : (l.set i true).getD j false = true := by
  induction l generalizing i j with
  | nil => simp [List.getD] at h
  | cons b bs ih =>
    cases i with
    | zero =>
      cases j with
      | zero => simp
      | succ j => simpa using h
    | succ i =>
      cases j with
      | zero => simpa using h
      | succ j =>
        simp only [List.set_cons_succ, List.getD_cons_succ] at h ⊢
        exact ih i j h

theorem getD_set_self_true (l : List Bool) (i : Nat) (h : i < l.length) :
    (l.set i true).getD i false = true := by
  induction l generalizing i with
  | nil => simp at h
  | cons b bs ih =>
    cases i with
    | zero => simp
    | succ i =>
      simp only [List.set_cons_succ, List.getD_cons_succ]
      exact ih i (by simpa using h)

theorem foldl_set_length (ps : List Nat) (l : List Bool) :
    (ps.foldl (fun bs i => bs.set i true) l).length = l.length := by
  induction ps generalizing l with
  | nil => rfl
  | cons p ps ih => simpa [List.foldl_cons] using (ih (l.set p true)).trans (by simp)

theorem foldl_set_mono (ps : List Nat) (l : List Bool) (j : Nat)
    (h : l.getD j false = true) :
    (ps.foldl (fun bs i => bs.set i true) l).getD j false = true := by
  induction ps generalizing l with
  | nil => exact h
  | cons p ps ih => exact ih (l.set p true) (getD_set_true_of_true l p j h)

theorem foldl_set_mem (ps : List Nat) (l : List Bool) (p : Nat)
    (hp : p ∈ ps) (hl : p < l.length) :
    (ps.foldl (fun bs i => bs.set i true) l).getD p false = true := by
  induction ps generalizing l with
  | nil => simp at hp
  | cons q qs ih =>
    rcases List.mem_cons.mp hp with hpq | hmem
    · subst hpq
      exact foldl_set_mono qs (l.set p true) p (getD_set_self_true l p hl)
    · exact ih (l.set q true) hmem (by simpa using hl)

/-- The `k` bit positions of a key in a given filter. -/
def bloomPositions (hash : String → Nat → Nat) (f : BloomFilter)
    (key : String) : List Nat :=
  (List.range f.nbHashes).map (fun i => hash key i % f.size)

theorem add_bits_eq (hash : String → Nat → Nat) (f : BloomFilter) (key : String) :
    (f.add hash key).bits =
      (bloomPositions hash f key).foldl (fun bs p => bs.set p true) f.bits := by
  simp [BloomFilter.add, bloomPositions, List.foldl_map]

theorem has_eq_all_positions (hash : String → Nat → Nat) (f : BloomFilter) (key : String) :
    f.has hash key = (bloomPositions hash f key).all (fun p => f.bits.getD p false) := by
  simp [BloomFilter.has, bloomPositions, List.all_map, Function.comp_def]

theorem add_size (hash : String → Nat → Nat) (f : BloomFilter) (key : String) :
    (f.add hash key).size = f.size := rfl

theorem add_nbHashes (hash : String → Nat → Nat) (f : BloomFilter) (key : String) :
    (f.add hash key).nbHashes = f.nbHashes := rfl

theorem add_bits_length (hash : String → Nat → Nat) (f : BloomFilter) (key : String) :
    (f.add hash key).bits.length = f.bits.length := by
  rw [add_bits_eq]; exact foldl_set_length _ _

theorem bloomPositions_add (hash : String → Nat → Nat) (f : BloomFilter)
    (key key2 : String) :
    bloomPositions hash (f.add hash key2) key = bloomPositions hash f key := rfl

theorem bloomPositions_lt (hash : String → Nat → Nat) (f : BloomFilter)
    (key : String) (h0 : 0 < f.size) :
    ∀ p ∈ bloomPositions hash f key, p < f.size := by
  intro p hp
  rcases List.mem_map.mp hp with ⟨i, _, rfl⟩
  exact Nat.mod_lt _ h0

theorem has_add_self (hash : String → Nat → Nat) (f : BloomFilter) (key : String)
    (h0 : 0 < f.size) (hwf : f.bits.length = f.size) :
    (f.add hash key).has hash key = true := by
  rw [has_eq_all_positions, bloomPositions_add, List.all_eq_true]
  intro p hp
  rw [add_bits_eq]
  exact foldl_set_mem _ f.bits p hp (by rw [hwf]; exact bloomPositions_lt hash f key h0 p hp)

theorem has_mono_add (hash : String → Nat → Nat) (f : BloomFilter)
    (key key2 : String) (h : f.has hash key = true) :
    (f.add hash key2).has hash key = true := by
  rw [has_eq_all_positions, bloomPositions_add, List.all_eq_true]
  rw [has_eq_all_positions, List.all_eq_true] at h
  intro p hp
  rw [add_bits_eq]
  exact foldl_set_mono _ f.bits p (h p hp)

theorem foldl_add_preserves_has (hash : String → Nat → Nat) (keys : List String)
    (f : BloomFilter) (key : String) (h : f.has hash key = true) :
    (keys.foldl (BloomFilter.add hash) f).has hash key = true := by
  induction keys generalizing f with
  | nil => exact h
  | cons kh kt ih => exact ih (f.add hash kh) (has_mono_add hash f key kh h)

theorem foldl_add_has_of_mem (hash : String → Nat → Nat) (keys : List String)
    (f : BloomFilter) (key : String) (hwf : f.bits.length = f.size)
    (h0 : 0 < f.size) (hmem : key ∈ keys) :
    (keys.foldl (BloomFilter.add hash) f).has hash key = true := by
  induction keys generalizing f with
  | nil => simp at hmem
  | cons kh kt ih =>
    rcases List.mem_cons.mp hmem with hk | hk
    · subst hk
      exact foldl_add_preserves_has hash kt (f.add hash key) key
        (has_add_self hash f key h0 hwf)
    · exact ih (f.add hash kh) (by rw [add_bits_length, hwf]; rfl) h0 hk

/-- C6 (no false negatives): for every hash family, every positive bit
count and every key inserted during the build, the built filter's
membership query answers true — deterministically, not probabilistically. -/
theorem c6_bloom_no_false_negatives (hash : String → Nat → Nat) (m k : Nat)
    (keys : List String) (key : String) (h0 : 0 < m) (hmem : key ∈ keys) :
    (buildBloomFilter hash m k keys).has hash key = true :=
  foldl_add_has_of_mem hash keys (BloomFilter.create m k)
    key (by simp [BloomFilter.create]) h0 hmem

/-- Witness for C6: a concrete 16-bit, 3-hash filter built from the
spec's end-to-end key set answers true for an inserted key. -/
theorem c6_bloom_no_false_negatives_witness :
    0 < 16 ∧ "alice" ∈ ["alice", "bob", "carol"] ∧
    (buildBloomFilter (fun s i => s.length * (i + 3) + i) 16 3
      ["alice", "bob", "carol"]).has (fun s i => s.length * (i + 3) + i) "alice" = true :=
  ⟨by decide, by decide,
   c6_bloom_no_false_negatives (fun s i => s.length * (i + 3) + i) 16 3
     ["alice", "bob", "carol"] "alice" (by decide) (by decide)⟩

/-- C8 fails on the code.  Build a 4-bit, one-hash-round filter over the
single key "alice" with a hash family sending every key to 4 (so the key
occupies position `4 % size`), persist it, and reload it through
`loadBloomFilter`.  The factory call `BloomFilter.create(data.size,
0.01)` receives the persisted bit count 4 as an item count; by the
spec's §4.2 sizing its resulting bit count exceeds 4 (it is
`ceil(4 * 9.58...) = 39`), and the load never restores `size`, so for
every created size above 4 the loaded index answers false on the
inserted key while the built filter answers true — the loaded index is
not query-equivalent to the built one. -/
theorem c8_load_size_mismatch (m2 k2 : Nat) (h4 : 4 < m2) :
    (loadBloomFilter m2 k2 (saveBloomFilter
        (buildBloomFilter (fun _ _ => 4) 4 1 ["alice"]) 1 "0.01" "2024-01-01")).has
      (fun _ _ => 4) "alice" = false ∧
    (buildBloomFilter (fun _ _ => 4) 4 1 ["alice"]).has (fun _ _ => 4) "alice" = true := by
  constructor
  · have hrec :
        saveBloomFilter (buildBloomFilter (fun _ _ => 4) 4 1 ["alice"]) 1 "0.01" "2024-01-01" =
          { size := 4, nbHashes := 1, bits := [true, false, false, false],
            totalItems := 1, fpr := "0.01", createdAt := "2024-01-01" } := by
      decide
    rw [hrec]
    simp [loadBloomFilter, BloomFilter.create, BloomFilter.has, Nat.mod_eq_of_lt h4,
      List.getD]
  · decide

/-- Witness for the C8 divergence at the created size 39 and hash count
7 that the §4.2 formulas yield for `create(4, 0.01)`. -/
theorem c8_load_size_mismatch_witness :
    4 < 39 ∧
    ((loadBloomFilter 39 7 (saveBloomFilter
        (buildBloomFilter (fun _ _ => 4) 4 1 ["alice"]) 1 "0.01" "2024-01-01")).has
      (fun _ _ => 4) "alice" = false ∧
     (buildBloomFilter (fun _ _ => 4) 4 1 ["alice"]).has (fun _ _ => 4) "alice" = true) :=
  ⟨by decide, c8_load_size_mismatch 39 7 (by decide)⟩

/-!
Handler theorems.
-/

/-- C7 (composite lookup protocol): for a well-formed (non-empty)
username, a negative filter answer yields "available" immediately with
no authoritative query — the response does not even depend on the store
— while a positive filter answer triggers the authoritative query;
when the store confirms, the name is reported taken; when the store
denies, the name is reported available, the response is flagged as a
false positive and the operator-facing false-positive counter is
incremented by one. -/
theorem c7_composite_lookup_protocol (bloomHas dbHas : String → Bool)
    (u : String) (fp : Nat) (hu : ¬ u = "") :
    (bloomHas u = false →
      checkUsernameHandler bloomHas dbHas (UsernameField.str u) fp =
        (HandlerResult.ok u true false "definitely_not_exists" false false, fp) ∧
      ∀ dbHas2 : String → Bool,
        checkUsernameHandler bloomHas dbHas (UsernameField.str u) fp =
          checkUsernameHandler bloomHas dbHas2 (UsernameField.str u) fp) ∧
    (bloomHas u = true → dbHas u = true →
      checkUsernameHandler bloomHas dbHas (UsernameField.str u) fp =
        (HandlerResult.ok u false true "maybe_exists" true false, fp)) ∧
    (bloomHas u = true → dbHas u = false →
      checkUsernameHandler bloomHas dbHas (UsernameField.str u) fp =
        (HandlerResult.ok u true false "maybe_exists" true true, fp + 1)) := by
  have hu2 : (u == "") = false := by
    simpa using hu
  refine ⟨fun hb => ⟨?_, fun dbHas2 => ?_⟩, fun hb hd => ?_, fun hb hd => ?_⟩ <;>
    simp [checkUsernameHandler, hu2, hb] <;> simp [hd]

/-- Witness for C7 at a concrete username, filter and store. -/
theorem c7_composite_lookup_protocol_witness :
    ((fun s => s == "ghost" || s == "alice") "alice" = false →
      checkUsernameHandler (fun s => s == "ghost" || s == "alice") (fun s => s == "alice")
          (UsernameField.str "alice") 7 =
        (HandlerResult.ok "alice" true false "definitely_not_exists" false false, 7) ∧
      ∀ dbHas2 : String → Bool,
        checkUsernameHandler (fun s => s == "ghost" || s == "alice") (fun s => s == "alice")
            (UsernameField.str "alice") 7 =
          checkUsernameHandler (fun s => s == "ghost" || s == "alice") dbHas2
            (UsernameField.str "alice") 7) ∧
    ((fun s => s == "ghost" || s == "alice") "alice" = true →
      (fun s => s == "alice") "alice" = true →
      checkUsernameHandler (fun s => s == "ghost" || s == "alice") (fun s => s == "alice")
          (UsernameField.str "alice") 7 =
        (HandlerResult.ok "alice" false true "maybe_exists" true false, 7)) ∧
    ((fun s => s == "ghost" || s == "alice") "alice" = true →
      (fun s => s == "alice") "alice" = false →
      checkUsernameHandler (fun s => s == "ghost" || s == "alice") (fun s => s == "alice")
          (UsernameField.str "alice") 7 =
        (HandlerResult.ok "alice" true false "maybe_exists" true true, 7 + 1)) :=
  c7_composite_lookup_protocol (fun s => s == "ghost" || s == "alice")
    (fun s => s == "alice") "alice" 7 (by decide)

/-- C10: a falsy `username` field (absent, JSON null, or the empty
string) is rejected with status 400 and the error text "Username is
required", the false-positive counter is untouched, and the answer does
not depend on the filter or the store — neither is consulted; in
particular the empty string can never be checked for membership. -/
theorem c10_falsy_username_rejected (bloomHas dbHas : String → Bool)
    (u : UsernameField) (fp : Nat) (hu : u.falsy = true) :
    checkUsernameHandler bloomHas dbHas u fp =
      (HandlerResult.badRequest "Username is required", fp) ∧
    ∀ bloomHas2 dbHas2 : String → Bool,
      checkUsernameHandler bloomHas dbHas u fp =
        checkUsernameHandler bloomHas2 dbHas2 u fp := by
  cases u with
  | absent => exact ⟨rfl, fun _ _ => rfl⟩
  | null => exact ⟨rfl, fun _ _ => rfl⟩
  | str s =>
    have hs : (s == "") = true := by simpa [UsernameField.falsy] using hu
    constructor
    · simp [checkUsernameHandler, hs]
    · intro bloomHas2 dbHas2
      simp [checkUsernameHandler, hs]

/-- Witness for C10 at the empty-string username. -/
theorem c10_falsy_username_rejected_witness :
    checkUsernameHandler (fun _ => true) (fun _ => true) (UsernameField.str "") 5 =
      (HandlerResult.badRequest "Username is required", 5) ∧
    ∀ bloomHas2 dbHas2 : String → Bool,
      checkUsernameHandler (fun _ => true) (fun _ => true) (UsernameField.str "") 5 =
        checkUsernameHandler bloomHas2 dbHas2 (UsernameField.str "") 5 :=
  c10_falsy_username_rejected (fun _ => true) (fun _ => true)
    (UsernameField.str "") 5 (by decide)
